import Mathlib

set_option maxHeartbeats 1000000

namespace OdoSpec

/-
Shallow embedding of the two converter modules:
  * src/odo/backends/sparksql.py  — datashape ↔ SparkSQL schema conversion
  * src/kdbpy/compute/qtable.py   — q type-code table and table-layout classifiers

`DS` models datashape's type objects: the ctype leaves used by the two
modules, `Option`, `Record` (ordered named fields), `Tuple`, `DataShape`
(a non-empty parameter list: the head parameter plus the remaining ones),
and the dimension markers `var` / `Fixed n`.  Records and parameter lists
are separate inductives so that all recursion stays structural.
-/

mutual

inductive DS : Type where
  | bool_ : DS
  | int8 : DS
  | int16 : DS
  | int32 : DS
  | int64 : DS
  | float32 : DS
  | float64 : DS
  | real_ : DS
  | string_ : DS
  | bytes_ : DS
  | date_ : DS
  | datetime_ : DS
  | time_ : DS
  | null_ : DS
  | timedelta : String → DS
  | option : DS → DS
  | record : Fields → DS
  | tuple : DList → DS
  | datashape : DS → DList → DS
  | var : DS
  | fixed : Nat → DS
  deriving DecidableEq, Repr

inductive Fields : Type where
  | nil : Fields
  | cons : String → DS → Fields → Fields
  deriving DecidableEq, Repr

inductive DList : Type where
  | nil : DList
  | cons : DS → DList → DList
  deriving DecidableEq, Repr

end

/-
`SType` models the SparkSQL type tree: the eleven scalar leaf types,
`ArrayType(elementType, containsNull)`, `StructType` over ordered
`StructField(name, dataType, nullable)` entries, and `MapType`
(imported by the source module but unmapped in `sparksql_to_dshape`).
-/

mutual

inductive SType : Type where
  | byteT : SType
  | shortT : SType
  | integerT : SType
  | longT : SType
  | floatT : SType
  | doubleT : SType
  | stringT : SType
  | binaryT : SType
  | booleanT : SType
  | timestampT : SType
  | dateT : SType
  | arrayT : SType → Bool → SType
  | structT : SFields → SType
  | mapT : SType → SType → SType
  deriving DecidableEq, Repr

inductive SFields : Type where
  | nil : SFields
  | cons : String → SType → Bool → SFields → SFields
  deriving DecidableEq, Repr

end

/- Python exceptions raised by the conversion functions.
`NotImplementedError()` is raised without a message in `dshape_to_schema`
(modelled as `notImplemented none`) and with a message in
`schema_to_dshape` (modelled as `notImplemented (some msg)`). -/
inductive Err : Type where
  | typeError : String → Err
  | notImplemented : Option String → Err
  | indexError : Err
  deriving DecidableEq, Repr

/- datashape.predicates.isdimension -/
def isdimension : DS → Bool
  | .var => true
  | .fixed _ => true
  | _ => false

/- isinstance(x, datashape.Option) -/
def isOption : DS → Bool
  | .option _ => true
  | _ => false

/-
deoption (sparksql.py lines 143-159), minus the string-parsing branch:
  if isinstance(ds, DataShape) and not isdimension(ds[0]): return deoption(ds[0])
  if isinstance(ds, Option): return ds.ty
  else: return ds
-/
def deoption : DS → DS
  | .datashape p0 ps => if isdimension p0 then .datashape p0 ps else deoption p0
  | .option ty => ty
  | d => d

/- A simple printer standing in for datashape's str()/repr(), used only to
build the text of error messages. -/
mutual

def showDS : DS → String
  | .bool_ => "bool"
  | .int8 => "int8"
  | .int16 => "int16"
  | .int32 => "int32"
  | .int64 => "int64"
  | .float32 => "float32"
  | .float64 => "float64"
  | .real_ => "real"
  | .string_ => "string"
  | .bytes_ => "bytes"
  | .date_ => "date"
  | .datetime_ => "datetime"
  | .time_ => "time"
  | .null_ => "null"
  | .timedelta u => "timedelta[unit=\x27" ++ u ++ "\x27]"
  | .option t => "?" ++ showDS t
  | .record fs => "\x7b" ++ showFields fs ++ "\x7d"
  | .tuple ds => "(" ++ showDList ds ++ ")"
  | .datashape p0 ps => showDS p0 ++ showDStar ps
  | .var => "var"
  | .fixed n => toString n

def showFields : Fields → String
  | .nil => ""
  | .cons n t .nil => n ++ ": " ++ showDS t
  | .cons n t rest => n ++ ": " ++ showDS t ++ ", " ++ showFields rest

def showDList : DList → String
  | .nil => ""
  | .cons d .nil => showDS d
  | .cons d rest => showDS d ++ ", " ++ showDList rest

def showDStar : DList → String
  | .nil => ""
  | .cons d rest => " * " ++ showDS d ++ showDStar rest

end

/- The scalar lookup table dshape_to_sparksql (sparksql.py lines 180-192);
membership `ds in dshape_to_sparksql` is `isSome`. -/
def dshape_to_sparksql : DS → Option SType
  | .int16 => some .shortT
  | .int32 => some .integerT
  | .int64 => some .longT
  | .float32 => some .floatT
  | .float64 => some .doubleT
  | .real_ => some .doubleT
  | .time_ => some .timestampT
  | .date_ => some .dateT
  | .datetime_ => some .timestampT
  | .bool_ => some .booleanT
  | .string_ => some .stringT
  | _ => none

/- The scalar lookup table sparksql_to_dshape (sparksql.py lines 163-178),
keyed on type(schema); ArrayType/StructType/MapType are not keys. -/
def sparksql_to_dshape : SType → Option DS
  | .byteT => some .int8
  | .shortT => some .int16
  | .integerT => some .int32
  | .longT => some .int64
  | .floatT => some .float32
  | .doubleT => some .float64
  | .stringT => some .string_
  | .binaryT => some .bytes_
  | .booleanT => some .bool_
  | .timestampT => some .datetime_
  | .dateT => some .date_
  | .arrayT _ _ => none
  | .structT _ => none
  | .mapT _ _ => none

/- type(schema).__name__ for the SparkSQL classes. -/
def sTypeName : SType → String
  | .byteT => "ByteType"
  | .shortT => "ShortType"
  | .integerT => "IntegerType"
  | .longT => "LongType"
  | .floatT => "FloatType"
  | .doubleT => "DoubleType"
  | .stringT => "StringType"
  | .binaryT => "BinaryType"
  | .booleanT => "BooleanType"
  | .timestampT => "TimestampType"
  | .dateT => "DateType"
  | .arrayT _ _ => "ArrayType"
  | .structT _ => "StructType"
  | .mapT _ _ => "MapType"

/- Message of the TypeError raised on Tuple input (sparksql.py lines 99-101). -/
def tupleMsg (ds : DList) : String :=
  "Please provide a Record dshape for these column types: (" ++ showDList ds ++ ")"

theorem one_le_sizeOf_DS (d : DS) : 1 ≤ sizeOf d := by
  cases d <;> (simp; try omega)

theorem deoption_sizeOf_le : (d : DS) → sizeOf (deoption d) ≤ sizeOf d
  | .bool_ => Nat.le_refl _
  | .int8 => Nat.le_refl _
  | .int16 => Nat.le_refl _
  | .int32 => Nat.le_refl _
  | .int64 => Nat.le_refl _
  | .float32 => Nat.le_refl _
  | .float64 => Nat.le_refl _
  | .real_ => Nat.le_refl _
  | .string_ => Nat.le_refl _
  | .bytes_ => Nat.le_refl _
  | .date_ => Nat.le_refl _
  | .datetime_ => Nat.le_refl _
  | .time_ => Nat.le_refl _
  | .null_ => Nat.le_refl _
  | .timedelta _ => Nat.le_refl _
  | .option ty => by simp [deoption]
  | .record _ => Nat.le_refl _
  | .tuple _ => Nat.le_refl _
  | .datashape p0 ps => by
      have ih := deoption_sizeOf_le p0
      by_cases h : isdimension p0 = true
      · simp [deoption, h]
      · simp only [deoption, h, if_false, Bool.false_eq_true]
        simp only [DS.datashape.sizeOf_spec]
        omega
  | .var => Nat.le_refl _
  | .fixed _ => Nat.le_refl _

/-
dshape_to_schema (sparksql.py lines 81-119), minus the string-parsing
branch.  Branch order follows the source: Tuple, Record, DataShape
(dimension head → ArrayType over `ds.subshape[0]`, unwrapped one level when
that subshape has a single parameter; non-dimension head → recurse into
`ds[0]`), then the scalar table lookup, else `raise NotImplementedError()`.
`fieldsToSchema` is the StructField list comprehension of the Record branch.
-/
mutual

def dshape_to_schema : DS → Except Err SType
  | .tuple ds => .error (.typeError (tupleMsg ds))
  | .record fs => (fieldsToSchema fs).map SType.structT
  | .datashape p0 ps =>
    if isdimension p0 then
      match ps with
      | .nil => .error .indexError
      | .cons e .nil =>
        (dshape_to_schema (deoption e)).map (fun t => SType.arrayT t (isOption e))
      | .cons e (.cons e2 rest) =>
        (dshape_to_schema (deoption (DS.datashape e (DList.cons e2 rest)))).map
          (fun t => SType.arrayT t (isOption (DS.datashape e (DList.cons e2 rest))))
    else dshape_to_schema p0
  | d =>
    match dshape_to_sparksql d with
    | some t => .ok t
    | none => .error (.notImplemented none)
termination_by d => sizeOf d
decreasing_by
  · simp only [DS.record.sizeOf_spec]
    omega
  · have h1 := deoption_sizeOf_le e
    have h2 := one_le_sizeOf_DS p0
    simp only [DS.datashape.sizeOf_spec, DList.cons.sizeOf_spec, DList.nil.sizeOf_spec]
    omega
  · have h1 := deoption_sizeOf_le (DS.datashape e (DList.cons e2 rest))
    have h2 := one_le_sizeOf_DS p0
    simp only [DS.datashape.sizeOf_spec, DList.cons.sizeOf_spec] at h1 ⊢
    omega
  · simp only [DS.datashape.sizeOf_spec]
    omega

def fieldsToSchema : Fields → Except Err SFields
  | .nil => .ok .nil
  | .cons n t rest => do
    let st ← dshape_to_schema (deoption t)
    let srest ← fieldsToSchema rest
    pure (SFields.cons n st (isOption t) srest)
termination_by fs => sizeOf fs
decreasing_by
  · rename_i n t rest
    have h1 := deoption_sizeOf_le t
    simp only [Fields.cons.sizeOf_spec]
    omega
  · rename_i n t rest
    simp only [Fields.cons.sizeOf_spec]
    omega

end

/- `datashape.var * x` : multiplying flattens when x is itself a DataShape,
otherwise wraps the measure. -/
def varMul : DS → DS
  | .datashape p0 ps => .datashape .var (.cons p0 ps)
  | m => .datashape .var (.cons m .nil)

/-
schema_to_dshape (sparksql.py lines 127-140): scalar table lookup on
type(schema); ArrayType → var * (Option-wrapped when containsNull) element;
StructType → dshape(Record(fields)) with Option-wrapped nullable fields;
anything else raises NotImplementedError naming the type.
-/
mutual

def schema_to_dshape : SType → Except Err DS
  | .arrayT et cn =>
    (schema_to_dshape et).map (fun d => varMul (if cn then DS.option d else d))
  | .structT sf =>
    (sfieldsBack sf).map (fun fs => DS.datashape (DS.record fs) DList.nil)
  | s =>
    match sparksql_to_dshape s with
    | some d => .ok d
    | none =>
      .error (.notImplemented (some ("SparkSQL type not known \x27" ++ sTypeName s ++ "\x27")))

def sfieldsBack : SFields → Except Err Fields
  | .nil => .ok .nil
  | .cons n dt nb rest => do
    let d ← schema_to_dshape dt
    let frest ← sfieldsBack rest
    pure (Fields.cons n (if nb then DS.option d else d) frest)

end

/-
qtable.py — the q type-code table `qtypes` (lines 11-28, keys lowercased
single-character codes plus the empty string); an absent key raises KeyError,
modelled by `none`.
-/
def qtypes : String → Option DS
  | "b" => some .bool_
  | "x" => some .int8
  | "h" => some .int16
  | "i" => some .int32
  | "j" => some .int64
  | "e" => some .float32
  | "f" => some .float64
  | "c" => some .string_
  | "s" => some .string_
  | "m" => some .date_
  | "d" => some .date_
  | "z" => some .datetime_
  | "p" => some .datetime_
  | "u" => some (.timedelta "m")
  | "v" => some (.timedelta "s")
  | "n" => some (.timedelta "ns")
  | "t" => some (.timedelta "ms")
  | "" => some .null_
  | _ => none

/- The closed code enumeration, in table order. -/
def qcodes : List String :=
  ["b", "x", "h", "i", "j", "e", "f", "c", "s", "m", "d", "z", "p", "u", "v", "n", "t", ""]

/-
The value returned by `.Q.qp[t].item()` (qtable.py line 65): a Python bool
or int.  The classifiers (lines 68-77):
  is_partitioned: qp(t) is True         — identity with the True singleton
  is_splayed:     qp(t) is False        — identity with the False singleton
  is_standard:    int(qp(t)) is 0       — int() coerces (int(False) == 0) and
                  CPython interns small ints, so this is int(qp(t)) == 0.
-/
inductive QPResult : Type where
  | pyBool : Bool → QPResult
  | pyInt : Int → QPResult
  deriving DecidableEq, Repr

def qpToInt : QPResult → Int
  | .pyBool b => if b then 1 else 0
  | .pyInt n => n

def is_partitioned : QPResult → Bool
  | .pyBool true => true
  | _ => false

def is_splayed : QPResult → Bool
  | .pyBool false => true
  | _ => false

def is_standard (r : QPResult) : Bool := qpToInt r == 0

/-
Supporting definitions for the claims.
-/

/- Shapes that fall through to the scalar-table-lookup branch of
dshape_to_schema: everything except Tuple, Record and DataShape. -/
def isLeafLike : DS → Bool
  | .tuple _ => false
  | .record _ => false
  | .datashape _ _ => false
  | _ => true

/- The element picked by the dimension branch (sparksql.py lines 110-112):
`elem = ds.subshape[0]`, unwrapped one level when that subshape has exactly
one parameter.  Here `e` is the first parameter after the dimension and `ps`
the remaining ones. -/
def arrayElem (e : DS) (ps : DList) : DS :=
  match ps with
  | .nil => e
  | .cons e2 rest => .datashape e (.cons e2 rest)

/- Scalar leaves whose two table entries invert each other, so that they
survive the schema round trip. -/
def goodLeaf : DS → Bool
  | .bool_ => true
  | .int16 => true
  | .int32 => true
  | .int64 => true
  | .float32 => true
  | .float64 => true
  | .string_ => true
  | .date_ => true
  | .datetime_ => true
  | _ => false

/-
The class of shapes on which the record round trip is the identity:
  * rtCore: a good scalar leaf, a var-dimension shape over an
    rtArrayTail, or a DataShape-wrapped record of rtFields;
  * rtField (a record field): an rtCore shape or an Option of one;
  * rtArrayTail: the parameters after a var dimension — further var
    dimensions ending in a final element;
  * rtElem (final array element): a good leaf, an Option of a good leaf,
    or a bare record of rtFields.
-/
mutual

def rtCore : DS → Bool
  | .datashape .var tail => rtArrayTail tail
  | .datashape (.record fs) .nil => rtFields fs
  | d => goodLeaf d

def rtArrayTail : DList → Bool
  | .cons m .nil => rtElem m
  | .cons .var (.cons e2 rest) => rtArrayTail (.cons e2 rest)
  | _ => false

def rtElem : DS → Bool
  | .option l => goodLeaf l
  | .record fs => rtFields fs
  | d => goodLeaf d

def rtFields : Fields → Bool
  | .nil => true
  | .cons _ t rest =>
    (match t with
     | .option x => rtCore x
     | t => rtCore t) && rtFields rest

end

def rtField : DS → Bool
  | .option x => rtCore x
  | t => rtCore t

theorem rtFields_cons (n : String) (t : DS) (rest : Fields) :
    rtFields (.cons n t rest) = (rtField t && rtFields rest) := by
  cases t <;> rfl

/- The result of deoption is a fixpoint of deoption exactly when it is
neither an Option nor a DataShape with a non-dimension head. -/
def stripped : DS → Bool
  | .option _ => false
  | .datashape p0 _ => isdimension p0
  | _ => true

theorem stripped_fix (d : DS) (h : stripped d = true) : deoption d = d := by
  cases d <;> simp_all [stripped, deoption]

/- Unfolding lemma: on anything except Tuple/Record/DataShape,
dshape_to_schema is the scalar table lookup. -/
theorem dshape_to_schema_leafLike (d : DS) (h : isLeafLike d = true) :
    dshape_to_schema d =
      (match dshape_to_sparksql d with
       | some t => .ok t
       | none => .error (.notImplemented none)) := by
  cases d <;> simp_all [isLeafLike] <;> simp [dshape_to_schema]

/- Unfolding lemma for the dimension branch of dshape_to_schema. -/
theorem dshape_to_schema_dim (p0 e : DS) (ps : DList) (h : isdimension p0 = true) :
    dshape_to_schema (.datashape p0 (.cons e ps)) =
      (dshape_to_schema (deoption (arrayElem e ps))).map
        (fun t => .arrayT t (isOption (arrayElem e ps))) := by
  cases ps <;> simp [dshape_to_schema, h, arrayElem]

/- On a good leaf, forward conversion hits the table and the backward table
entry restores the leaf. -/
theorem leaf_pack (l : DS) (h : goodLeaf l = true) :
    ∃ st, dshape_to_schema l = .ok st ∧ schema_to_dshape st = .ok l := by
  cases l <;> simp [goodLeaf] at h
  case bool_ => exact ⟨.booleanT, (dshape_to_schema_leafLike .bool_ rfl).trans rfl, rfl⟩
  case int16 => exact ⟨.shortT, (dshape_to_schema_leafLike .int16 rfl).trans rfl, rfl⟩
  case int32 => exact ⟨.integerT, (dshape_to_schema_leafLike .int32 rfl).trans rfl, rfl⟩
  case int64 => exact ⟨.longT, (dshape_to_schema_leafLike .int64 rfl).trans rfl, rfl⟩
  case float32 => exact ⟨.floatT, (dshape_to_schema_leafLike .float32 rfl).trans rfl, rfl⟩
  case float64 => exact ⟨.doubleT, (dshape_to_schema_leafLike .float64 rfl).trans rfl, rfl⟩
  case string_ => exact ⟨.stringT, (dshape_to_schema_leafLike .string_ rfl).trans rfl, rfl⟩
  case date_ => exact ⟨.dateT, (dshape_to_schema_leafLike .date_ rfl).trans rfl, rfl⟩
  case datetime_ => exact ⟨.timestampT, (dshape_to_schema_leafLike .datetime_ rfl).trans rfl, rfl⟩

/- Repackaging step used by field_rt for non-Option fields. -/
theorem field_of_core (t : DS) (hno : isOption t = false)
    (hc : ∃ st, dshape_to_schema t = .ok st ∧ dshape_to_schema (deoption t) = .ok st ∧
      schema_to_dshape st = .ok t) :
    ∃ st d, dshape_to_schema (deoption t) = .ok st ∧ schema_to_dshape st = .ok d ∧
      (if isOption t then DS.option d else d) = t := by
  obtain ⟨st, _, h2, h3⟩ := hc
  exact ⟨st, t, h2, h3, by simp [hno]⟩

/-
The round-trip induction: on every shape in the rt grammar,
schema_to_dshape inverts dshape_to_schema.
-/
mutual

theorem core_rt (x : DS) (h : rtCore x = true) :
    ∃ st, dshape_to_schema x = .ok st ∧ dshape_to_schema (deoption x) = .ok st ∧
      schema_to_dshape st = .ok x := by
  cases x
  case datashape p0 ps =>
    cases p0
    case var =>
      have h' : rtArrayTail ps = true := by simpa [rtCore] using h
      obtain ⟨st, h1, h2⟩ := tail_rt ps h'
      exact ⟨st, h1, h1, h2⟩
    case record fs =>
      cases ps
      case nil =>
        have h' : rtFields fs = true := by simpa [rtCore] using h
        obtain ⟨sf, hf, hb⟩ := fields_rt fs h'
        refine ⟨.structT sf, ?_, ?_, ?_⟩
        · simp [dshape_to_schema, isdimension, hf, Except.map]
        · simp [deoption, isdimension, dshape_to_schema, hf, Except.map]
        · simp [schema_to_dshape, hb, Except.map]
      case cons e2 rest => simp [rtCore, goodLeaf] at h
    all_goals simp [rtCore, goodLeaf] at h
  case option x => simp [rtCore, goodLeaf] at h
  case tuple ds => simp [rtCore, goodLeaf] at h
  case record fs => simp [rtCore, goodLeaf] at h
  all_goals
    simp only [rtCore] at h
    obtain ⟨st, h1, h2⟩ := leaf_pack _ h
    exact ⟨st, h1, h1, h2⟩
termination_by 2 * sizeOf x
decreasing_by
  all_goals subst_vars
  all_goals (simp; omega)

theorem tail_rt (tail : DList) (h : rtArrayTail tail = true) :
    ∃ st, dshape_to_schema (.datashape .var tail) = .ok st ∧
      schema_to_dshape st = .ok (.datashape .var tail) := by
  cases tail
  case nil => simp [rtArrayTail] at h
  case cons m rest =>
    cases rest
    case nil =>
      have hm : rtElem m = true := by simpa [rtArrayTail] using h
      rw [dshape_to_schema_dim .var m .nil rfl]
      cases m
      case option l =>
        obtain ⟨st0, f0, b0⟩ := leaf_pack l (by simpa [rtElem] using hm)
        refine ⟨.arrayT st0 true, ?_, ?_⟩
        · simp [arrayElem, deoption, isOption, f0, Except.map]
        · simp [schema_to_dshape, b0, varMul, Except.map]
      case record fs =>
        obtain ⟨sf, f1, b1⟩ := fields_rt fs (by simpa [rtElem] using hm)
        refine ⟨.arrayT (.structT sf) false, ?_, ?_⟩
        · simp [arrayElem, deoption, isOption, dshape_to_schema, f1, Except.map]
        · simp [schema_to_dshape, b1, varMul, Except.map]
      case datashape p0 ps => simp [rtElem, goodLeaf] at hm
      all_goals
        simp only [rtElem] at hm
        obtain ⟨st0, f0, b0⟩ := leaf_pack _ hm
        exact ⟨.arrayT st0 false,
          by simp [arrayElem, deoption, isOption, f0, Except.map],
          by simp [schema_to_dshape, b0, varMul, Except.map]⟩
    case cons e2 rest2 =>
      cases m
      case var =>
        have h' : rtArrayTail (.cons e2 rest2) = true := by simpa [rtArrayTail] using h
        obtain ⟨st0, f0, b0⟩ := tail_rt (.cons e2 rest2) h'
        rw [dshape_to_schema_dim .var .var (.cons e2 rest2) rfl]
        refine ⟨.arrayT st0 false, ?_, ?_⟩
        · simp [arrayElem, deoption, isdimension, isOption, f0, Except.map]
        · simp [schema_to_dshape, b0, varMul, Except.map]
      all_goals simp [rtArrayTail] at h
termination_by 2 * sizeOf tail + 1
decreasing_by
  all_goals subst_vars
  all_goals first
    | (simp; omega)
    | simp

theorem fields_rt (fs : Fields) (h : rtFields fs = true) :
    ∃ sf, fieldsToSchema fs = .ok sf ∧ sfieldsBack sf = .ok fs := by
  cases fs
  case nil => exact ⟨.nil, by simp [fieldsToSchema], rfl⟩
  case cons n t rest =>
    rw [rtFields_cons, Bool.and_eq_true] at h
    obtain ⟨st, d, hf, hb, hcomb⟩ := field_rt t h.1
    obtain ⟨sf, hfs, hbs⟩ := fields_rt rest h.2
    refine ⟨.cons n st (isOption t) sf, ?_, ?_⟩
    · simp [fieldsToSchema, hf, hfs, Except.map, Except.bind, Bind.bind, Except.pure, Pure.pure]
    · simp [sfieldsBack, hb, hbs, hcomb, Except.map, Except.bind, Bind.bind, Except.pure,
        Pure.pure]
termination_by 2 * sizeOf fs
decreasing_by
  all_goals subst_vars
  all_goals first
    | (simp; omega)
    | simp

theorem field_rt (t : DS) (h : rtField t = true) :
    ∃ st d, dshape_to_schema (deoption t) = .ok st ∧ schema_to_dshape st = .ok d ∧
      (if isOption t then DS.option d else d) = t := by
  cases t
  case option x =>
    obtain ⟨st, h1, h2, h3⟩ := core_rt x (by simpa [rtField] using h)
    exact ⟨st, x, h1, h3, rfl⟩
  case bool_ => exact field_of_core _ rfl (core_rt _ h)
  case int8 => exact field_of_core _ rfl (core_rt _ h)
  case int16 => exact field_of_core _ rfl (core_rt _ h)
  case int32 => exact field_of_core _ rfl (core_rt _ h)
  case int64 => exact field_of_core _ rfl (core_rt _ h)
  case float32 => exact field_of_core _ rfl (core_rt _ h)
  case float64 => exact field_of_core _ rfl (core_rt _ h)
  case real_ => exact field_of_core _ rfl (core_rt _ h)
  case string_ => exact field_of_core _ rfl (core_rt _ h)
  case bytes_ => exact field_of_core _ rfl (core_rt _ h)
  case date_ => exact field_of_core _ rfl (core_rt _ h)
  case datetime_ => exact field_of_core _ rfl (core_rt _ h)
  case time_ => exact field_of_core _ rfl (core_rt _ h)
  case null_ => exact field_of_core _ rfl (core_rt _ h)
  case timedelta u => exact field_of_core _ rfl (core_rt _ h)
  case record fs => exact field_of_core _ rfl (core_rt _ h)
  case tuple ds => exact field_of_core _ rfl (core_rt _ h)
  case datashape p0 ps => exact field_of_core _ rfl (core_rt _ h)
  case var => exact field_of_core _ rfl (core_rt _ h)
  case fixed n => exact field_of_core _ rfl (core_rt _ h)
termination_by 2 * sizeOf t + 1
decreasing_by
  all_goals subst_vars
  all_goals first
    | (simp; omega)
    | simp

end

/- Every code in the closed enumeration has a table entry. -/
theorem qtypes_mem_isSome : ∀ c ∈ qcodes, (qtypes c).isSome = true := by decide

/- Codes outside the enumeration have no entry (KeyError). -/
theorem qtypes_not_mem (c : String) (hc : c ∉ qcodes) : qtypes c = none := by
  unfold qtypes
  split <;> first
    | rfl
    | exact absurd (by decide) hc

/-
Claims.
-/

/-- C1 (amended): schema_to_dshape inverts dshape_to_schema on every record
shape (a DataShape wrapping a Record) whose field types lie in the rt
grammar: invertible scalar leaves (bool, int16, int32, int64, float32,
float64, string, date, datetime), Options of rtCore shapes, var-dimension
arrays over such leaves, Options of such leaves or records, and
DataShape-wrapped records of the same form.  Field names, field order and
per-field nullability are preserved.  (As stated over all representable
shapes the claim is false: the time and real leaves are representable but
do not survive the round trip — see the counterexample.) -/
theorem C1_roundtrip_amended (fs : Fields) (h : rtFields fs = true) :
    (dshape_to_schema (.datashape (.record fs) .nil)).bind schema_to_dshape =
      .ok (.datashape (.record fs) .nil) := by
  obtain ⟨sf, hf, hb⟩ := fields_rt fs h
  simp [dshape_to_schema, isdimension, hf, schema_to_dshape, hb, Except.map, Except.bind]

/-- C1 counterexample: the record shape with one time-of-day field is built
only from types representable in the SparkSQL schema system, yet its round
trip returns a datetime field instead, so the round trip is not the
identity on it. -/
theorem C1_counterexample :
    (dshape_to_schema (.datashape (.record (.cons "x" .time_ .nil)) .nil)).bind
        schema_to_dshape =
      .ok (.datashape (.record (.cons "x" .datetime_ .nil)) .nil) ∧
    DS.datashape (.record (.cons "x" .datetime_ .nil)) .nil ≠
      DS.datashape (.record (.cons "x" .time_ .nil)) .nil := by
  constructor
  · simp [dshape_to_schema, fieldsToSchema, deoption, isOption, isdimension,
      dshape_to_sparksql, schema_to_dshape, sparksql_to_dshape, sfieldsBack,
      Except.map, Except.bind, Bind.bind, Pure.pure, Except.pure]
  · decide

/-- C1 witness: the spec scenario record (name: string, amount: optional
int32) satisfies the grammar and round trips to itself. -/
theorem C1_witness :
    rtFields (.cons "name" .string_ (.cons "amount" (.option .int32) .nil)) = true ∧
    (dshape_to_schema (.datashape
        (.record (.cons "name" .string_ (.cons "amount" (.option .int32) .nil))) .nil)).bind
        schema_to_dshape =
      .ok (.datashape
        (.record (.cons "name" .string_ (.cons "amount" (.option .int32) .nil))) .nil) :=
  ⟨by simp [rtFields, rtCore, goodLeaf],
   C1_roundtrip_amended _ (by simp [rtFields, rtCore, goodLeaf])⟩

/-- C2 (code bug): evaluating the classifiers at the failing input — a
partition query returning the boolean False (a splayed table) — shows
is_splayed and is_standard both hold, because int(False) == 0, violating
the claimed mutual exclusivity; and at an out-of-range result such as 2
all three classifiers silently return false instead of failing loudly. -/
theorem C2_failing_eval :
    is_splayed (.pyBool false) = true ∧ is_standard (.pyBool false) = true ∧
    is_partitioned (.pyBool false) = false ∧
    is_partitioned (.pyInt 2) = false ∧ is_splayed (.pyInt 2) = false ∧
    is_standard (.pyInt 2) = false := by decide

/-- C3: the code-to-shape table is defined exactly on the closed
enumeration qcodes (anything else raises KeyError, modelled as none), the
empty-string code maps to the null type, and code j maps to int64. -/
theorem C3_qtypes_total (c : String) :
    ((qtypes c).isSome = true ↔ c ∈ qcodes) ∧
    qtypes "" = some .null_ ∧ qtypes "j" = some .int64 := by
  refine ⟨⟨fun hs => ?_, fun hm => qtypes_mem_isSome c hm⟩, rfl, rfl⟩
  by_contra hc
  rw [qtypes_not_mem c hc] at hs
  simp at hs

/-- C3 witness: instantiating at the out-of-enumeration code q. -/
theorem C3_witness :
    ((qtypes "q").isSome = true ↔ "q" ∈ qcodes) ∧
    qtypes "" = some .null_ ∧ qtypes "j" = some .int64 := C3_qtypes_total "q"

/-- C4 counterexample: deoption is not idempotent on a doubly-nested
optional — deoption strips exactly one optional layer, so a second
application strips further. -/
theorem C4_counterexample :
    deoption (deoption (.option (.option .int32))) ≠
      deoption (.option (.option .int32)) := by decide

/-- C4 (amended): deoption is idempotent on every shape type S whose
deoption result is stripped — neither an optional wrapper nor a DataShape
with a non-dimension head; equivalently, deoption strips non-dimensional
wrapping down to the first dimensional type or the first optional wrapper
inner type, and idempotence fails only when that inner type is itself
optional or DataShape-wrapped. -/
theorem C4_amended (S : DS) (h : stripped (deoption S) = true) :
    deoption (deoption S) = deoption S := stripped_fix _ h

/-- C4 witness: a var-dimension shape satisfies the side condition and is a
deoption fixpoint. -/
theorem C4_witness :
    stripped (deoption (DS.datashape .var (.cons .int32 .nil))) = true ∧
    deoption (deoption (DS.datashape .var (.cons .int32 .nil))) =
      deoption (DS.datashape .var (.cons .int32 .nil)) :=
  ⟨rfl, C4_amended _ rfl⟩

/-- C5: every Tuple shape is rejected by dshape_to_schema with a TypeError
whose message lists the offending component shapes and directs the caller
to provide a Record dshape; no Tuple is ever converted to a schema. -/
theorem C5_tuple_rejected (ds : DList) :
    dshape_to_schema (.tuple ds) = .error (.typeError (tupleMsg ds)) ∧
    ∃ s, tupleMsg ds =
      "Please provide a Record dshape for these column types: (" ++ s ++ ")" :=
  ⟨by simp [dshape_to_schema], ⟨showDList ds, rfl⟩⟩

/-- C5 witness: the two-component tuple of int32 and string is rejected. -/
theorem C5_witness :
    dshape_to_schema (.tuple (.cons .int32 (.cons .string_ .nil))) =
      .error (.typeError (tupleMsg (.cons .int32 (.cons .string_ .nil)))) :=
  (C5_tuple_rejected _).1

/-- C6: when the outermost parameter of a DataShape is a dimension, the
conversion produces an ArrayType whose element type is the recursive
conversion of the dimension element shape — the one-parameter sub-DataShape
unwrapped one level when applicable — with its optional wrapper stripped,
and whose nullable flag records whether that element was optional-wrapped. -/
theorem C6_dim_conversion (p0 e : DS) (ps : DList) (h : isdimension p0 = true) :
    dshape_to_schema (.datashape p0 (.cons e ps)) =
      (dshape_to_schema (deoption (arrayElem e ps))).map
        (fun t => .arrayT t (isOption (arrayElem e ps))) :=
  dshape_to_schema_dim p0 e ps h

/-- C6 witness: the spec scenario — an array of single-field records
unwraps one level before converting the element. -/
theorem C6_witness :
    isdimension DS.var = true ∧
    dshape_to_schema (.datashape .var (.cons (.record (.cons "a" .int32 .nil)) .nil)) =
      (dshape_to_schema (deoption (arrayElem (.record (.cons "a" .int32 .nil)) .nil))).map
        (fun t => .arrayT t (isOption (arrayElem (.record (.cons "a" .int32 .nil)) .nil))) :=
  ⟨rfl, C6_dim_conversion .var _ .nil rfl⟩

/-- C7 counterexample: the forward lookup miss on the int8 leaf raises
NotImplementedError with no message at all, so the error does not name the
unsupported shape type, contrary to the claim. -/
theorem C7_counterexample :
    dshape_to_schema DS.int8 = .error (.notImplemented none) ∧
    Err.notImplemented none ≠ .notImplemented (some "int8") :=
  ⟨(dshape_to_schema_leafLike .int8 rfl).trans rfl, by decide⟩

/-- C7 (amended): a lookup miss raises a not-implemented error in both
directions, but only schema-to-shape names the unsupported type in its
message (for example MapType); shape-to-schema raises the error bare, with
no message. -/
theorem C7_amended :
    (∀ k v : SType, schema_to_dshape (.mapT k v) =
      .error (.notImplemented (some "SparkSQL type not known \x27MapType\x27"))) ∧
    (∀ d : DS, isLeafLike d = true → dshape_to_sparksql d = none →
      dshape_to_schema d = .error (.notImplemented none)) :=
  ⟨fun _ _ => rfl, fun d h1 h2 => by rw [dshape_to_schema_leafLike d h1, h2]⟩

/-- C7 witness: instantiating both directions — MapType backward, the bytes
leaf forward. -/
theorem C7_witness :
    schema_to_dshape (SType.mapT .byteT .byteT) =
      .error (.notImplemented (some "SparkSQL type not known \x27MapType\x27")) ∧
    dshape_to_schema DS.bytes_ = .error (.notImplemented none) :=
  ⟨C7_amended.1 _ _, C7_amended.2 _ rfl rfl⟩

/-- C8: for every classification-query outcome, a table classified as
partitioned is neither splayed nor standard. -/
theorem C8_partitioned_exclusive (r : QPResult) (h : is_partitioned r = true) :
    is_splayed r = false ∧ is_standard r = false := by
  cases r with
  | pyBool b =>
    cases b with
    | true => exact ⟨rfl, rfl⟩
    | false => simp [is_partitioned] at h
  | pyInt n => simp [is_partitioned] at h

/-- C8 witness: the boolean-true query result is partitioned and nothing
else. -/
theorem C8_witness :
    is_partitioned (.pyBool true) = true ∧
    is_splayed (.pyBool true) = false ∧ is_standard (.pyBool true) = false :=
  ⟨rfl, (C8_partitioned_exclusive (.pyBool true) rfl).1,
    (C8_partitioned_exclusive (.pyBool true) rfl).2⟩

/-- C9: the forward scalar table is not injective — time and datetime both
map to TimestampType (and real maps to DoubleType, as does float64), so the
time leaf round trips to datetime, not to itself. -/
theorem C9_non_injective :
    dshape_to_schema DS.time_ = .ok .timestampT ∧
    dshape_to_schema DS.datetime_ = .ok .timestampT ∧
    dshape_to_schema DS.real_ = .ok .doubleT ∧
    dshape_to_schema DS.float64 = .ok .doubleT ∧
    (dshape_to_schema DS.time_).bind schema_to_dshape = .ok DS.datetime_ ∧
    DS.datetime_ ≠ DS.time_ := by
  have ht : dshape_to_schema DS.time_ = .ok .timestampT :=
    (dshape_to_schema_leafLike .time_ rfl).trans rfl
  refine ⟨ht, (dshape_to_schema_leafLike .datetime_ rfl).trans rfl,
    (dshape_to_schema_leafLike .real_ rfl).trans rfl,
    (dshape_to_schema_leafLike .float64 rfl).trans rfl, ?_, by decide⟩
  rw [ht]
  rfl

/-- C10: the scalar tables are asymmetric — ByteType and BinaryType map
back to int8 and bytes, but the forward table has no entry for int8 or
bytes, so the schema-to-shape-to-schema round trip on ByteType and
BinaryType always fails with the bare not-implemented error. -/
theorem C10_asymmetric_tables :
    schema_to_dshape SType.byteT = .ok .int8 ∧
    schema_to_dshape SType.binaryT = .ok .bytes_ ∧
    dshape_to_schema DS.int8 = .error (.notImplemented none) ∧
    dshape_to_schema DS.bytes_ = .error (.notImplemented none) ∧
    (schema_to_dshape SType.byteT).bind dshape_to_schema =
      .error (.notImplemented none) ∧
    (schema_to_dshape SType.binaryT).bind dshape_to_schema =
      .error (.notImplemented none) := by
  have h8 : dshape_to_schema DS.int8 = .error (.notImplemented none) :=
    (dshape_to_schema_leafLike .int8 rfl).trans rfl
  have hb : dshape_to_schema DS.bytes_ = .error (.notImplemented none) :=
    (dshape_to_schema_leafLike .bytes_ rfl).trans rfl
  exact ⟨rfl, rfl, h8, hb, h8, hb⟩

end OdoSpec
